import Mathlib

/-!
Shallow embedding of `drfexts/renderers.py`: the tabular export pipeline
(`BaseExportRenderer.get_value`, `tablize`, `flatten_data`), the CSV and XLSX
export renderers (`CustomCSVRenderer.render`, `CustomXLSXRenderer.render`),
and the JSON envelope renderer (`CustomJSONRenderer.render`).

Python values that flow through the renderers are modelled by the inductive
type `Val` (strings, integers, None, lists, dicts as ordered association
lists, mirroring Python dict insertion order).  Python exceptions are
modelled by `PyErr` and fallible code returns `Except PyErr _`.
-/

namespace Drfexts

/-- A Python value as seen by the renderers: scalar, `None`, list, or dict
(ordered key/value pairs, insertion order preserved as in Python dicts). -/
inductive Val where
  | str (s : String)
  | int (n : Int)
  | null
  | list (xs : List Val)
  | dict (kvs : List (String × Val))

/-- Python truthiness test for `data is None`. -/
def Val.isNull : Val → Bool
  | .null => true
  | _ => false

/-- The single-quote character used by Python `repr` of strings. -/
def pyQuote : String := String.singleton (Char.ofNat 39)

mutual

/-- Python `repr` of a value, as used inside `str` of containers. -/
def pyRepr : Val → String
  | .str s => pyQuote ++ s ++ pyQuote
  | .int n => toString n
  | .null => "None"
  | .list xs => "[" ++ pyReprList xs ++ "]"
  | .dict kvs => "\x7b" ++ pyReprDict kvs ++ "\x7d"

/-- Comma-separated `repr`s of the elements of a list. -/
def pyReprList : List Val → String
  | [] => ""
  | [v] => pyRepr v
  | v :: vs => pyRepr v ++ ", " ++ pyReprList vs

/-- Comma-separated `key: value` `repr`s of the entries of a dict. -/
def pyReprDict : List (String × Val) → String
  | [] => ""
  | [kv] => pyQuote ++ kv.1 ++ pyQuote ++ ": " ++ pyRepr kv.2
  | kv :: kvs => pyQuote ++ kv.1 ++ pyQuote ++ ": " ++ pyRepr kv.2 ++ ", " ++ pyReprDict kvs

end

/-- Python `str` of a value (`str` on a string is the string itself;
on containers it agrees with `repr`). -/
def pyStr : Val → String
  | .str s => s
  | v => pyRepr v

/-- One record: a flat mapping from column identifier to value, modelling the
dictionaries the serializer hands to the export renderers. -/
abbrev Record := List (String × Val)

/-- `BaseExportRenderer.get_value`: `item.get(key, "")`, stringifying a value
that is itself a dict or a list. -/
def get_value (item : Record) (key : String) : Val :=
  match item.lookup key with
  | none => .str ""
  | some (.dict kvs) => .str (pyStr (.dict kvs))
  | some (.list xs) => .str (pyStr (.list xs))
  | some v => v

/-- Python `dict(item)`: a shallow copy of an already-flat mapping. -/
def dictOf (r : Record) : Record := r

/-- `BaseExportRenderer.flatten_data`: yield `dict(item)` for each item. -/
def flatten_data (data : List Record) : List Record :=
  data.map dictOf

/-- Python truthiness of a header argument: `not header` is true both for
`None` and for an empty list. -/
def headerTruthy : Option (List String) → Bool
  | none => false
  | some [] => false
  | some (_ :: _) => true

/-- `BaseExportRenderer.tablize data header`: the produced rows, as lists of
values (the header row carries its column identifiers as strings).
`dataHeader` models the optional `data.header` attribute consulted when no
header argument was supplied. -/
def tablize (data : List Record) (header : Option (List String))
    (dataHeader : Option (List String)) : List (List Val) :=
  -- `if not header and hasattr(data, "header"): header = data.header`
  let header := if headerTruthy header then header else dataHeader
  match data with
  | [] =>
    -- `elif header: yield header` / `else: pass`
    if headerTruthy header then [(header.getD []).map Val.str] else []
  | _ :: _ =>
    let flat := flatten_data data
    if headerTruthy header then
      let h := header.getD []
      h.map Val.str :: flat.map (fun item => h.map (get_value item))
    else
      match flat with
      | [] => []  -- unreachable: `flatten_data` preserves length
      | first :: rest =>
        -- `first_data = next(data); header = list(first_data.keys());`
        -- `data = chain([first_data], data)`
        let h := first.map Prod.fst
        h.map Val.str :: (first :: rest).map (fun item => h.map (get_value item))

/-- `flatten_data` is the identity on lists of already-flat records. -/
theorem flatten_data_id : ∀ data : List Record, flatten_data data = data
  | [] => rfl
  | r :: rs => congrArg (r :: ·) (flatten_data_id rs)

/-- A Python exception surfaced by the renderers. -/
inductive PyErr where
  | attributeError
  | keyError (k : String)
  | typeError
  | indexError
deriving DecidableEq

/-- The response payload handed to an export renderer's `render`:
`None`, a mapping (whose `results` entry, when present, holds the record
list), or a plain record list. -/
inductive Payload where
  | null
  | mapping (kvs : List (String × List Record))
  | records (rs : List Record)

/-- Whether the payload is Python `None`. -/
def Payload.isNull : Payload → Bool
  | .null => true
  | _ => false

/-- `data = data[self.data_key]` with `KeyError` recovered as `data = []`;
a non-mapping payload is used as the record list directly. -/
def Payload.extract : Payload → List Record
  | .null => []
  | .mapping kvs => (kvs.lookup "results").getD []
  | .records rs => rs

/-- The `renderer_context` keys `CustomCSVRenderer.render` reads; a `none`
field models an absent key (the class-level defaults `writer_opts = None`
and `header = None` make absence and `None` coincide). -/
structure CSVContext where
  writer_opts : Option (List (String × Val))
  header : Option (List String)
  encoding : Option String

/-- The bytes produced by `CustomCSVRenderer.render`, abstracted as the
table rows together with the encoding and writer options handed to the
CSV-writing collaborator; `emptyBytes` is the early `return bytes()`. -/
inductive CSVOut where
  | emptyBytes
  | bytes (rows : List (List Val)) (encoding : String)
      (writerOpts : List (String × Val))

/-- `CustomCSVRenderer.render`. `renderer_context = renderer_context or {}`
recovers a `None` context; `None` data returns empty bytes; a mapping
without the `results` key becomes the empty dataset; the encoding defaults
to `"gbk"`. -/
def csvRender (data : Payload) (renderer_context : Option CSVContext) :
    CSVOut :=
  let ctx := renderer_context.getD ⟨none, none, none⟩
  match data with
  | .null => .emptyBytes
  | _ =>
    let rows := data.extract
    let wopts := ctx.writer_opts.getD []
    let header := ctx.header
    let encoding := ctx.encoding.getD "gbk"
    .bytes (tablize rows header none) encoding wopts

/-- One value of the spreadsheet `export_style` bundle. -/
inductive StyleVal where
  | font (bold : Bool)
  | fill (patternType : String) (startColor : String)
  | alignment (vertical : String)
  | nat (n : Nat)
  | bool (b : Bool)
  | str (s : String)
deriving DecidableEq

/-- The class-level `CustomXLSXRenderer.export_style` default. -/
def default_export_style : List (String × StyleVal) :=
  [("header_font", .font true),
   ("header_fill", .fill "solid" "87CEFA"),
   ("header_alignment", .alignment "center"),
   ("header_height", .nat 18),
   ("freeze_header", .bool true),
   ("freeze_panes", .str "A2")]

/-- The `renderer_context` keys `CustomXLSXRenderer.render` reads. -/
structure XLSXContext where
  header : Option (List String)
  export_style : Option (List (String × StyleVal))

/-- The bytes produced by `CustomXLSXRenderer.render`, abstracted as the
appended rows plus the style values applied to the header row. -/
inductive XLSXOut where
  | emptyBytes
  | workbook (rows : List (List Val)) (headerFont headerFill : StyleVal)
      (headerAlignment headerHeight freezePanes : StyleVal)

/-- Python `style[key]`: `KeyError` when the key is absent. -/
def styleItem (s : List (String × StyleVal)) (k : String) :
    Except PyErr StyleVal :=
  match s.lookup k with
  | some v => .ok v
  | none => .error (.keyError k)

/-- `CustomXLSXRenderer.render`.  `None` data returns empty bytes before the
context is touched; afterwards `renderer_context.get` on a `None` context
raises `AttributeError`.  The style dict used is the context override when
present, else the class default (no merging); the four bracket accesses can
raise `KeyError`, while `freeze_panes` is read with `.get(_, True)`.
On an empty sheet `sheet["1:1"]` still yields the single cell A1, so the
style lookups happen even for an empty table. -/
def xlsxRender (data : Payload) (renderer_context : Option XLSXContext) :
    Except PyErr XLSXOut :=
  match data with
  | .null => .ok .emptyBytes
  | _ =>
    match renderer_context with
    | none => .error .attributeError
    | some ctx =>
      let rows := data.extract
      let header := ctx.header
      let style := ctx.export_style.getD default_export_style
      let table := tablize rows header none
      do
        let f ← styleItem style "header_font"
        let fl ← styleItem style "header_fill"
        let al ← styleItem style "header_alignment"
        let ht ← styleItem style "header_height"
        let fp := (style.lookup "freeze_panes").getD (.bool true)
        pure (.workbook table f fl al ht fp)

/-- Python dict assignment `d[k] = v`: update in place (keeping the key's
position) when present, else append. -/
def dSet (kvs : List (String × Val)) (k : String) (v : Val) :
    List (String × Val) :=
  if kvs.any (fun kv => kv.1 == k) then
    kvs.map (fun kv => if kv.1 == k then (k, v) else kv)
  else kvs ++ [(k, v)]

/-- Python `d.pop(k, None)`: remove the key when present, never an error. -/
def dPop (kvs : List (String × Val)) (k : String) : List (String × Val) :=
  kvs.filter (fun kv => kv.1 != k)

/-- Python `v[k]` with a string key: a dict lookup (`KeyError` when absent);
every other value raises `TypeError`. -/
def subscriptKey (v : Val) (k : String) : Except PyErr Val :=
  match v with
  | .dict kvs =>
    match kvs.lookup k with
    | some x => .ok x
    | none => .error (.keyError k)
  | _ => .error .typeError

/-- Python `v[0]`: first element of a list or string (`IndexError` when
empty), `KeyError` on a dict (our dict keys are strings), `TypeError`
otherwise. -/
def subscriptZero (v : Val) : Except PyErr Val :=
  match v with
  | .list [] => .error .indexError
  | .list (x :: _) => .ok x
  | .str s =>
    match s.data with
    | [] => .error .indexError
    | c :: _ => .ok (.str (String.mk [c]))
  | .dict _ => .error (.keyError "0")
  | _ => .error .typeError

/-- `rest_framework.status.is_success`: `200 <= code <= 299`. -/
def is_success (code : Nat) : Bool :=
  decide (200 ≤ code ∧ code ≤ 299)

/-- The response object in the renderer context: its mutable status code. -/
structure Response where
  status_code : Nat

/-- The `renderer_context` keys `CustomJSONRenderer.render` reads:
the response (absent key and `None` value coincide through the walrus
truthiness test), and the request's `id` when the request has one. -/
structure JSONContext where
  response : Option Response
  request_id : Option Val

/-- The bytes produced by `CustomJSONRenderer.render`: empty, or the
serialized payload dict together with the status code the response was
rewritten to and whether indentation was requested (HTML media type). -/
inductive JSONOut where
  | emptyBytes
  | serialized (payload : List (String × Val)) (responseStatus : Nat)
      (pretty : Bool)

/-- `CustomJSONRenderer.render`.  A `None` context raises `AttributeError`
on `renderer_context.get`.  With a truthy response the envelope is built
(`request_id?`, `ret`, `msg`, `data?`); on a non-success status the
`try/except` around `data["detail"]` recovers `KeyError` with the message
"Invalid input." and recovers `TypeError` by retrying on `data[0]` — errors
raised inside that handler propagate.  The response status is then rewritten
to 200.  Without a response, `None` data returns empty bytes; otherwise the
pass-through `response._rendered_data = payload` dereferences the `None`
response and raises `AttributeError`. -/
def jsonRender (data : Val) (media_type : Option String)
    (renderer_context : Option JSONContext) : Except PyErr JSONOut :=
  match renderer_context with
  | none => .error .attributeError
  | some ctx =>
    let pretty := media_type == some "text/html"
    match ctx.response with
    | some response =>
      let payload0 : List (String × Val) :=
        match ctx.request_id with
        | some rid => [("request_id", rid)]
        | none => []
      let payload1 := dSet payload0 "ret" (.int response.status_code)
      let payload2 := dSet payload1 "msg" (.str "success")
      let payload3 :=
        if data.isNull then payload2 else dSet payload2 "data" data
      let payloadE : Except PyErr (List (String × Val)) :=
        if is_success response.status_code then .ok payload3
        else
          match subscriptKey data "detail" with
          | .ok det => .ok (dPop (dSet payload3 "msg" det) "data")
          | .error (.keyError _) =>
            .ok (dSet payload3 "msg" (.str "Invalid input."))
          | .error .typeError =>
            match subscriptZero data with
            | .error e => .error e
            | .ok d0 =>
              match subscriptKey d0 "detail" with
              | .error e => .error e
              | .ok det => .ok (dPop (dSet payload3 "msg" det) "data")
          | .error e => .error e
      match payloadE with
      | .error e => .error e
      | .ok payload => .ok (.serialized payload 200 pretty)
    | none =>
      if data.isNull then .ok .emptyBytes
      else .error .attributeError

/-- C1: with no explicit header and no header attribute on the data, the
first row yielded by `tablize` is the key order of the first flattened
record, every subsequent row lists the cells of one input record in header
order (the first record re-prepended, all records in input order,
one-to-one), and consequently every row has the header's length. -/
theorem tablize_infers_header_from_first_record (r : Record)
    (rs : List Record) :
    tablize (r :: rs) none none =
      (r.map Prod.fst).map Val.str ::
        (r :: rs).map (fun item => (r.map Prod.fst).map (get_value item)) ∧
    (tablize (r :: rs) none none).map List.length =
      List.replicate (rs.length + 2) r.length := by
  have hconst : ∀ l : List Record,
      (l.map (fun item => (r.map Prod.fst).map (get_value item))).map
          List.length = List.replicate l.length r.length := by
    intro l
    induction l with
    | nil => rfl
    | cons a t ih =>
      simp only [List.map_cons, List.length_cons, List.replicate_succ,
        List.length_map, ih]
  have h1 : tablize (r :: rs) none none =
      (r.map Prod.fst).map Val.str ::
        (r :: rs).map (fun item => (r.map Prod.fst).map (get_value item)) := by
    simp [tablize, headerTruthy, flatten_data, dictOf, List.map_id']
  refine ⟨h1, ?_⟩
  rw [h1, List.map_cons, hconst (r :: rs)]
  simp [List.replicate_succ]

/-- Whether a value is a nested structure (a dict or a list), i.e. one the
value accessor stringifies. -/
def Val.isNested : Val → Bool
  | .dict _ => true
  | .list _ => true
  | _ => false

/-- C2: `get_value` returns the record's value for the key unchanged when
that value is not a nested structure, defaults to the empty string when the
key is absent (never an error), and stringifies a value that is itself a
dict or a list. -/
theorem get_value_cell_spec (item : Record) (key : String) :
    (item.lookup key = none → get_value item key = .str "") ∧
    (∀ kvs, item.lookup key = some (.dict kvs) →
      get_value item key = .str (pyStr (.dict kvs))) ∧
    (∀ xs, item.lookup key = some (.list xs) →
      get_value item key = .str (pyStr (.list xs))) ∧
    (∀ v, item.lookup key = some v → v.isNested = false →
      get_value item key = v) := by
  refine ⟨fun h => ?_, fun kvs h => ?_, fun xs h => ?_, fun v h hn => ?_⟩
  · simp [get_value, h]
  · simp [get_value, h]
  · simp [get_value, h]
  · cases v <;> simp_all [get_value, Val.isNested]

/-- Witness for C2 on a concrete record: a scalar cell passes through
unchanged and a nested list cell renders as its Python string form. -/
theorem get_value_cell_spec_witness :
    get_value [("a", Val.int 7), ("b", Val.list [Val.int 1, Val.int 2])] "a"
      = Val.int 7 ∧
    get_value [("a", Val.int 7), ("b", Val.list [Val.int 1, Val.int 2])] "b"
      = Val.str "[1, 2]" :=
  ⟨(get_value_cell_spec
      [("a", Val.int 7), ("b", Val.list [Val.int 1, Val.int 2])] "a").2.2.2
      (Val.int 7) rfl rfl,
   ((get_value_cell_spec
      [("a", Val.int 7), ("b", Val.list [Val.int 1, Val.int 2])] "b").2.2.1
      [Val.int 1, Val.int 2] rfl).trans rfl⟩

/-- C4: `tablize` on an empty dataset yields no rows at all when no header
is available, and exactly the header row when a (truthy) header is
available. -/
theorem tablize_empty_dataset (H : List String) (hH : H ≠ []) :
    tablize [] none none = [] ∧
    tablize [] (some H) none = [H.map Val.str] := by
  refine ⟨rfl, ?_⟩
  match H, hH with
  | _ :: _, _ => rfl

/-- Witness for C4 on a concrete header. -/
theorem tablize_empty_dataset_witness :
    tablize [] (some ["a", "b"]) none = [[Val.str "a", Val.str "b"]] :=
  ((tablize_empty_dataset ["a", "b"] (by decide)).2).trans rfl

/-- C3 counterexample: a partial export_style override (here only
header_font) does not fall back to the component defaults for the missing
keys — the spreadsheet render fails with a KeyError on header_fill. -/
theorem xlsx_partial_style_override_raises :
    xlsxRender (.records [[("a", Val.int 1)]])
      (some ⟨none, some [("header_font", .font false)]⟩) =
    .error (.keyError "header_fill") := rfl

/-- C3 amended: a context export_style override replaces the defaults
wholesale — every style value used is looked up in the override alone (the
component defaults never contribute), and an absent freeze_panes falls back
to the constant True, not to the component default "A2". -/
theorem xlsx_style_override_replaces (rs : List Record)
    (hdr : Option (List String)) (s : List (String × StyleVal))
    (f fl al ht : StyleVal)
    (hf : s.lookup "header_font" = some f)
    (hfl : s.lookup "header_fill" = some fl)
    (hal : s.lookup "header_alignment" = some al)
    (hht : s.lookup "header_height" = some ht) :
    xlsxRender (.records rs) (some ⟨hdr, some s⟩) =
      .ok (.workbook (tablize rs hdr none) f fl al ht
        ((s.lookup "freeze_panes").getD (.bool true))) := by
  simp only [xlsxRender, styleItem, Payload.extract, Option.getD_some,
    hf, hfl, hal, hht]
  rfl

/-- Witness for the amended C3: a full override is used verbatim and its
missing freeze_panes becomes True. -/
theorem xlsx_style_override_replaces_witness :
    xlsxRender (.records []) (some ⟨none, some
      [("header_font", .font false), ("header_fill", .fill "solid" "FFFFFF"),
       ("header_alignment", .alignment "top"), ("header_height", .nat 20)]⟩)
    = .ok (.workbook [] (.font false) (.fill "solid" "FFFFFF")
        (.alignment "top") (.nat 20) (.bool true)) :=
  (xlsx_style_override_replaces [] none
    [("header_font", .font false), ("header_fill", .fill "solid" "FFFFFF"),
     ("header_alignment", .alignment "top"), ("header_height", .nat 20)]
    _ _ _ _ rfl rfl rfl rfl).trans rfl

/-- C5: both export renderers return empty bytes on a None payload, and a
mapping payload without the results key is treated as the empty dataset,
proceeding without error (the spreadsheet renderer shown with its default
style, i.e. no export_style override in the context). -/
theorem render_missing_data_recovered (octx : Option CSVContext)
    (oxctx : Option XLSXContext) (xhdr : Option (List String))
    (kvs : List (String × List Record))
    (hk : kvs.lookup "results" = none) :
    csvRender .null octx = .emptyBytes ∧
    xlsxRender .null oxctx = .ok .emptyBytes ∧
    csvRender (.mapping kvs) octx = csvRender (.records []) octx ∧
    xlsxRender (.mapping kvs) (some ⟨xhdr, none⟩) =
      .ok (.workbook (tablize [] xhdr none) (.font true)
        (.fill "solid" "87CEFA") (.alignment "center") (.nat 18)
        (.str "A2")) := by
  refine ⟨rfl, rfl, ?_, ?_⟩
  · simp [csvRender, Payload.extract, hk]
  · have h2 : Payload.extract (.mapping kvs) = ([] : List Record) := by
      simp [Payload.extract, hk]
    simp only [xlsxRender, h2]
    rfl

/-- Witness for C5 at a concrete mapping payload lacking the results key. -/
theorem render_missing_data_recovered_witness :
    csvRender (.mapping [("count", [])]) none =
      csvRender (.records []) none :=
  (render_missing_data_recovered none none none [("count", [])] rfl).2.2.1

/-- The encoding carried by a CSV render result, when any. -/
def CSVOut.enc : CSVOut → Option String
  | .emptyBytes => none
  | .bytes _ e _ => some e

/-- C8: a CSV render of non-None data encodes with the context-supplied
encoding when one is present, and with the GBK default otherwise
(including when the whole context is absent). -/
theorem csv_encoding_default_gbk (data : Payload) (ctx : CSVContext)
    (hd : data.isNull = false) :
    (ctx.encoding = none →
      (csvRender data (some ctx)).enc = some "gbk") ∧
    (∀ e, ctx.encoding = some e →
      (csvRender data (some ctx)).enc = some e) ∧
    (csvRender data none).enc = some "gbk" := by
  cases data with
  | null => simp [Payload.isNull] at hd
  | mapping kvs =>
    exact ⟨fun h => by simp [csvRender, CSVOut.enc, h],
           fun e h => by simp [csvRender, CSVOut.enc, h], rfl⟩
  | records rs =>
    exact ⟨fun h => by simp [csvRender, CSVOut.enc, h],
           fun e h => by simp [csvRender, CSVOut.enc, h], rfl⟩

/-- Witness for C8: default GBK with no encoding in the context, override
respected when one is supplied. -/
theorem csv_encoding_default_gbk_witness :
    (csvRender (.records []) (some ⟨none, none, none⟩)).enc = some "gbk" ∧
    (csvRender (.records [])
      (some ⟨none, none, some "utf-8"⟩)).enc = some "utf-8" :=
  ⟨(csv_encoding_default_gbk (.records []) ⟨none, none, none⟩ rfl).1 rfl,
   (csv_encoding_default_gbk (.records []) ⟨none, none, some "utf-8"⟩
      rfl).2.1 "utf-8" rfl⟩

/-- C9: the CSV renderer treats a None context as an empty mapping, while
the spreadsheet renderer with non-None data and a None context fails with
an AttributeError before producing any bytes; only its None-data case
returns empty bytes without consulting the context. -/
theorem null_context_tolerance_differs (data : Payload)
    (hd : data.isNull = false) :
    (∀ d : Payload,
      csvRender d none = csvRender d (some ⟨none, none, none⟩)) ∧
    xlsxRender data none = .error .attributeError ∧
    xlsxRender .null none = .ok .emptyBytes := by
  refine ⟨fun d => ?_, ?_, rfl⟩
  · cases d <;> rfl
  · cases data with
    | null => simp [Payload.isNull] at hd
    | mapping kvs => rfl
    | records rs => rfl

/-- Witness for C9 at a concrete non-None payload. -/
theorem null_context_tolerance_differs_witness :
    xlsxRender (.records [[("a", Val.int 1)]]) none =
      .error .attributeError :=
  (null_context_tolerance_differs (.records [[("a", Val.int 1)]]) rfl).2.1

/-- C6: on a non-success status, when the payload carries an error detail
(either directly as a mapping or as the first element of a list), the
envelope's msg is that detail, the data key is omitted, the ret key keeps
the original status, and the response status is rewritten to 200. -/
theorem json_error_envelope (data : Val) (sc : Nat) (rid : Option Val)
    (mt : Option String) (hs : is_success sc = false) (det : Val)
    (hshape : subscriptKey data "detail" = .ok det ∨
      (subscriptKey data "detail" = .error .typeError ∧
       ∃ d0, subscriptZero data = .ok d0 ∧
         subscriptKey d0 "detail" = .ok det)) :
    ∃ payload b,
      jsonRender data mt (some ⟨some ⟨sc⟩, rid⟩) =
        .ok (.serialized payload 200 b) ∧
      payload.lookup "msg" = some det ∧
      payload.lookup "data" = none ∧
      payload.lookup "ret" = some (.int sc) := by
  have hnull : data.isNull = false := by
    rcases hshape with h | ⟨h, d0, hz, hd⟩
    · cases data <;> simp_all [subscriptKey, Val.isNull]
    · cases data <;> simp_all [subscriptZero, Val.isNull]
  rcases hshape with h | ⟨h, d0, hz, hd⟩
  · cases rid with
    | none =>
      refine ⟨[("ret", .int sc), ("msg", det)], mt == some "text/html",
        ?_, rfl, rfl, rfl⟩
      simp [jsonRender, hs, hnull, h, dSet, dPop]
    | some r =>
      refine ⟨[("request_id", r), ("ret", .int sc), ("msg", det)],
        mt == some "text/html", ?_, rfl, rfl, rfl⟩
      simp [jsonRender, hs, hnull, h, dSet, dPop]
  · cases rid with
    | none =>
      refine ⟨[("ret", .int sc), ("msg", det)], mt == some "text/html",
        ?_, rfl, rfl, rfl⟩
      simp [jsonRender, hs, hnull, h, hz, hd, dSet, dPop]
    | some r =>
      refine ⟨[("request_id", r), ("ret", .int sc), ("msg", det)],
        mt == some "text/html", ?_, rfl, rfl, rfl⟩
      simp [jsonRender, hs, hnull, h, hz, hd, dSet, dPop]

/-- Witness for C6 mirroring spec Scenario 5: payload with a detail entry
under a 404 status. -/
theorem json_error_envelope_witness :
    jsonRender (.dict [("detail", .str "not found")]) none
      (some ⟨some ⟨404⟩, none⟩) =
    .ok (.serialized [("ret", .int 404), ("msg", .str "not found")] 200
      false) := by
  obtain ⟨p, b, h1, h2, h3, h4⟩ :=
    json_error_envelope (.dict [("detail", .str "not found")]) 404 none none
      (by decide) (.str "not found") (Or.inl rfl)
  exact rfl

/-- C7 counterexample: a malformed error payload (here an empty list) on a
non-success status does not fall back to "Invalid input." — the IndexError
raised inside the TypeError handler propagates to the caller. -/
theorem json_malformed_list_propagates :
    jsonRender (.list []) none (some ⟨some ⟨400⟩, none⟩) =
      .error .indexError := rfl

/-- C7 amended: the "Invalid input." fallback applies exactly to a mapping
payload lacking the detail key (whose data key is then retained in the
envelope); malformed non-mapping payloads reach the TypeError handler,
whose own failures propagate. -/
theorem json_malformed_dict_fallback (kvs : List (String × Val)) (sc : Nat)
    (rid : Option Val) (mt : Option String)
    (hs : is_success sc = false) (hno : kvs.lookup "detail" = none) :
    ∃ payload b,
      jsonRender (.dict kvs) mt (some ⟨some ⟨sc⟩, rid⟩) =
        .ok (.serialized payload 200 b) ∧
      payload.lookup "msg" = some (.str "Invalid input.") ∧
      payload.lookup "data" = some (.dict kvs) := by
  cases rid with
  | none =>
    refine ⟨[("ret", .int sc), ("msg", .str "Invalid input."),
      ("data", .dict kvs)], mt == some "text/html", ?_, rfl, rfl⟩
    simp [jsonRender, hs, hno, subscriptKey, dSet, Val.isNull]
  | some r =>
    refine ⟨[("request_id", r), ("ret", .int sc),
      ("msg", .str "Invalid input."), ("data", .dict kvs)],
      mt == some "text/html", ?_, rfl, rfl⟩
    simp [jsonRender, hs, hno, subscriptKey, dSet, Val.isNull]

/-- Witness for the amended C7 at a concrete detail-less mapping. -/
theorem json_malformed_dict_fallback_witness :
    jsonRender (.dict []) none (some ⟨some ⟨400⟩, none⟩) =
      .ok (.serialized [("ret", .int 400), ("msg", .str "Invalid input."),
        ("data", .dict [])] 200 false) := by
  obtain ⟨p, b, h1, h2, h3⟩ :=
    json_malformed_dict_fallback [] 400 none none (by decide) rfl
  exact rfl

/-- C10: with non-None data the JSON renderer needs a context carrying a
response: a None context fails on the context access, and a context whose
response is absent fails when recording the rendered payload on the None
response, so the pass-through path never returns bytes for non-None
data. -/
theorem json_passthrough_requires_response (data : Val)
    (mt : Option String) (hd : data.isNull = false) :
    jsonRender data mt none = .error .attributeError ∧
    ∀ rid : Option Val,
      jsonRender data mt (some ⟨none, rid⟩) = .error .attributeError := by
  refine ⟨rfl, fun rid => ?_⟩
  simp [jsonRender, hd]

/-- Witness for C10 at a concrete non-None payload. -/
theorem json_passthrough_requires_response_witness :
    jsonRender (.int 1) none (some ⟨none, none⟩) = .error .attributeError :=
  (json_passthrough_requires_response (.int 1) none rfl).2 none

end Drfexts
